import Mathlib

/-!
Shallow embedding of `src/cll251draft.py`, the sunburn-risk / ozone
simulator.  Python floats are modelled by exact rationals (`ℚ`) for the
closed-form arithmetic, and by `ℝ` for the logistic risk curve (which
uses `exp`).  The one network fetch is modelled by passing the outcome
of the HTTP request (`Fetched`) as an explicit argument; Python
exceptions surface as `Except` errors.
-/

namespace SPF

/-- Constant `BASE_UV_INDEX = 8` (line 8 of the source). -/
def BASE_UV_INDEX : ℚ := 8

/-- Constant `OZONE_BASE = 300` (line 9 of the source). -/
def OZONE_BASE : ℚ := 300

/-- Constant `ALTITUDE_BOOST = 0.1` (line 18 of the source). -/
def ALTITUDE_BOOST : ℚ := 0.1

/-- The six skin types of the `SKIN_TYPES` dictionary (lines 10–17). -/
inductive SkinType where
  | typeI | typeII | typeIII | typeIV | typeV | typeVI
deriving DecidableEq, Repr

/-- `SKIN_TYPES`: base burn minutes per skin type (lines 10–17). -/
def SKIN_TYPES : SkinType → ℚ
  | .typeI => 5
  | .typeII => 10
  | .typeIII => 15
  | .typeIV => 20
  | .typeV => 25
  | .typeVI => 30

/-- JSON values, for the body of the air-pollution API response. -/
inductive Json where
  | null
  | num (v : ℚ)
  | str (s : String)
  | arr (xs : List Json)
  | obj (fields : List (String × Json))

/-- `data[key]` on a JSON object; `none` models the `KeyError` /
`TypeError` that the bare `except` of the source catches. -/
def Json.field (j : Json) (key : String) : Option Json :=
  match j with
  | .obj fields => fields.lookup key
  | _ => none

/-- `data[i]` on a JSON array; `none` models `IndexError` / `TypeError`. -/
def Json.index (j : Json) (i : ℕ) : Option Json :=
  match j with
  | .arr xs => xs[i]?
  | _ => none

/-- Reading a JSON value as a number; a non-numeric `o3` field would make
the division raise `TypeError`, which the bare `except` catches. -/
def Json.number (j : Json) : Option ℚ :=
  match j with
  | .num v => some v
  | _ => none

/-- Outcome of `requests.get(url)` followed by `response.json()`
(lines 25–26): the request can raise a network error, the body can fail
to parse as JSON, or a parsed JSON document is obtained.  Both calls
happen before the `try:` block of `get_ozone_thickness`. -/
inductive Fetched where
  | netError
  | badJson
  | parsed (data : Json)

/-- The Python exceptions that can escape `get_ozone_thickness`:
`requests.exceptions.ConnectionError` (and kin) from `requests.get`,
and `json.JSONDecodeError` from `response.json()`. -/
inductive PyErr where
  | connectionError
  | jsonDecodeError
deriving DecidableEq, Repr

/-- Python `round(x, 2)` (round to 2 decimal places). -/
def round2 (q : ℚ) : ℚ := (round (q * 100) : ℤ) / 100

/-- The body of the `try:` block (line 29):
`data['list'][0]['components']['o3']`; `none` when any step fails. -/
def extractO3 (data : Json) : Option ℚ :=
  ((((data.field "list").bind (fun l => l.index 0)).bind
      (fun entry => entry.field "components")).bind
    (fun comps => comps.field "o3")).bind Json.number

/-- `get_ozone_thickness(lat, lon, api_key)` (lines 23–33).  The network
outcome is passed explicitly as `world`.  `requests.get` and
`response.json()` run before the `try:` block, so their exceptions
propagate (`Except.error`); inside the `try:` block any failure is
caught by the bare `except` and yields `None`. -/
def get_ozone_thickness (lat lon : ℚ) (api_key : String) (world : Fetched) :
    Except PyErr (Option ℚ) :=
  match world with
  | .netError => .error .connectionError
  | .badJson => .error .jsonDecodeError
  | .parsed data =>
      match extractO3 data with
      | some ozone_ugm3 => .ok (some (round2 (ozone_ugm3 / 2.1415)))
      | none => .ok none

/-- `get_uv_index(ozone_du, cloud_cover, altitude_km)` (lines 36–40). -/
def get_uv_index (ozone_du cloud_cover altitude_km : ℚ) : ℚ :=
  let base_uv := BASE_UV_INDEX * (OZONE_BASE / ozone_du)
  let cloud_factor := 1 - (cloud_cover / 100) * 0.75
  let altitude_factor := 1 + ALTITUDE_BOOST * altitude_km
  base_uv * cloud_factor * altitude_factor

/-- `get_protection_time(spf, uv_index, skin_minutes)` (lines 43–44). -/
def get_protection_time (spf uv_index skin_minutes : ℚ) : ℚ :=
  (spf * skin_minutes) / uv_index

/-- The `risk_level` conditional expression (lines 80–86). -/
def risk_level (uv_index : ℚ) : String :=
  if uv_index < 3 then "Low"
  else if uv_index < 6 then "Moderate"
  else if uv_index < 8 then "High"
  else if uv_index < 11 then "Very High"
  else "Extreme"

/-- The caller-side fallback branch (lines 61–66): Python's
`if ozone_live:` is the truthiness test on an `Optional[float]`, which
is false for `None` and for `0.0`; on falsy values the manual slider
value is used instead. -/
def ozoneChoice (ozone_live : Option ℚ) (manual : ℚ) : ℚ :=
  match ozone_live with
  | some v => if v = 0 then manual else v
  | none => manual

/-- `np.linspace(0, 180, 500)` (line 104): 500 evenly spaced samples,
the i-th being `180 * i / 499`. -/
noncomputable def minutes : List ℝ :=
  (List.range 500).map (fun i : ℕ => 180 * (i : ℝ) / 499)

/-- The logistic burn-risk value at minute `t` (line 106):
`1 / (1 + exp(-(t - safe_time) / 10))`. -/
noncomputable def risk (safe_time t : ℝ) : ℝ :=
  1 / (1 + Real.exp (-(t - safe_time) / 10))

/-- `risk_array` (line 106): the logistic risk evaluated elementwise
over the `minutes` samples. -/
noncomputable def risk_array (safe_time : ℝ) : List ℝ :=
  minutes.map (risk safe_time)

/-- Column names of the exported DataFrame (lines 122–125). -/
def exportHeader : List String := ["Minute", "Burn Risk (0=Safe, 1=High)"]

/-- Rows of the exported CSV: `to_csv(index=False)` writes one row per
sample, pairing each minute with its risk value, with no index
column (lines 122–126). -/
noncomputable def exportRows (safe_time : ℝ) : List (ℝ × ℝ) :=
  minutes.zip (risk_array safe_time)

/-- The input snapshot of one evaluation of the script body. -/
structure Inputs where
  ozone : ℚ
  cloud : ℚ
  altitude : ℚ
  spf : ℚ
  exposure : ℚ
  skin_type : SkinType

/-- Everything the script computes from the inputs (lines 77–126). -/
structure Outputs where
  uv_index : ℚ
  base_time : ℚ
  safe_time : ℚ
  risk_label : String
  exceeds_safe : Bool
  curve : List (ℝ × ℝ)

/-- One top-to-bottom evaluation of the script body (lines 77–126):
UV index, base burn time, safe exposure time, risk label, the exposure
alert, and the risk-curve table.  It is a plain function of the input
snapshot: the source reads no state other than its inputs. -/
noncomputable def evaluate (inp : Inputs) : Outputs :=
  let uv := get_uv_index inp.ozone inp.cloud inp.altitude
  let base := SKIN_TYPES inp.skin_type
  let safe := get_protection_time inp.spf uv base
  { uv_index := uv
    base_time := base
    safe_time := safe
    risk_label := risk_level uv
    exceeds_safe := decide (inp.exposure > safe)
    curve := exportRows (safe : ℝ) }

/-! ## Theorems -/

/-- C1: the claim states that `get_ozone_thickness` never raises for any
network error, malformed response, or missing field.  On the code this
fails: `requests.get` and `response.json()` run before the `try:` block
(lines 25–26), so a network error or a malformed (non-JSON) body raises
to the caller; only a missing field in a parsed body yields `None`.
This theorem evaluates the embedding at those inputs. -/
theorem get_ozone_thickness_raises_outside_try :
    get_ozone_thickness 28.6139 77.209 "key" .netError
        = .error .connectionError ∧
    get_ozone_thickness 28.6139 77.209 "key" .badJson
        = .error .jsonDecodeError ∧
    get_ozone_thickness 28.6139 77.209 "key" (.parsed (Json.obj []))
        = .ok none :=
  ⟨rfl, rfl, rfl⟩

/-- C2: for every `ozone_du > 0`, `get_uv_index` equals
`8 * (300 / ozone_du) * (1 - 0.75 * cloud/100) * (1 + 0.1 * alt)`, and
at `cloud = 0`, `alt = 0` it equals `8 * 300 / ozone_du` exactly. -/
theorem get_uv_index_formula (ozone_du cloud_cover altitude_km : ℚ)
    (h : 0 < ozone_du) :
    get_uv_index ozone_du cloud_cover altitude_km
        = 8 * (300 / ozone_du) * (1 - 0.75 * cloud_cover / 100)
          * (1 + 0.1 * altitude_km) ∧
    get_uv_index ozone_du 0 0 = 8 * 300 / ozone_du := by
  unfold get_uv_index BASE_UV_INDEX OZONE_BASE ALTITUDE_BOOST
  constructor <;> ring

/-- Witness for C2 at `ozone_du = 300`. -/
theorem get_uv_index_formula_witness :
    (0 : ℚ) < 300 ∧ get_uv_index 300 0 0 = 8 * 300 / 300 :=
  ⟨by norm_num, (get_uv_index_formula 300 0 0 (by norm_num)).2⟩

/-- C3: for `uv_index ≠ 0`, `get_protection_time spf uv base` equals
`spf * base / uv`; in particular spf=30, base=10, uv=8 gives 37.5. -/
theorem get_protection_time_formula :
    (∀ spf base_burn uv_index : ℚ, uv_index ≠ 0 →
        get_protection_time spf uv_index base_burn
          = spf * base_burn / uv_index) ∧
    get_protection_time 30 8 10 = 37.5 := by
  constructor
  · intro spf base_burn uv_index h
    unfold get_protection_time
    ring
  · norm_num [get_protection_time]

/-- Witness for C3 at spf=30, uv=8, base=10. -/
theorem get_protection_time_formula_witness :
    (8 : ℚ) ≠ 0 ∧ get_protection_time 30 8 10 = 30 * 10 / 8 :=
  ⟨by norm_num, get_protection_time_formula.1 30 10 8 (by norm_num)⟩

/-- C4: `risk_level` is the five-band first-match-wins threshold ladder
with thresholds 3, 6, 8, 11, and takes the stated values at the
boundary inputs 2.99, 3, 5.99, 6, 7.99, 8, 10.99, 11. -/
theorem risk_level_ladder :
    (∀ uv : ℚ,
      (uv < 3 → risk_level uv = "Low") ∧
      (3 ≤ uv → uv < 6 → risk_level uv = "Moderate") ∧
      (6 ≤ uv → uv < 8 → risk_level uv = "High") ∧
      (8 ≤ uv → uv < 11 → risk_level uv = "Very High") ∧
      (11 ≤ uv → risk_level uv = "Extreme")) ∧
    risk_level 2.99 = "Low" ∧ risk_level 3 = "Moderate" ∧
    risk_level 5.99 = "Moderate" ∧ risk_level 6 = "High" ∧
    risk_level 7.99 = "High" ∧ risk_level 8 = "Very High" ∧
    risk_level 10.99 = "Very High" ∧ risk_level 11 = "Extreme" := by
  constructor
  · intro uv
    refine ⟨fun h => ?_, fun h3 h6 => ?_, fun h6 h8 => ?_,
        fun h8 h11 => ?_, fun h11 => ?_⟩ <;>
      simp only [risk_level]
    · rw [if_pos h]
    · rw [if_neg (not_lt.mpr h3), if_pos h6]
    · rw [if_neg (not_lt.mpr (by linarith)), if_neg (not_lt.mpr h6),
        if_pos h8]
    · rw [if_neg (not_lt.mpr (by linarith)),
        if_neg (not_lt.mpr (by linarith)), if_neg (not_lt.mpr h8),
        if_pos h11]
    · rw [if_neg (not_lt.mpr (by linarith)),
        if_neg (not_lt.mpr (by linarith)),
        if_neg (not_lt.mpr (by linarith)), if_neg (not_lt.mpr h11)]
  · norm_num [risk_level]

/-- Witness for C4 at uv = 12. -/
theorem risk_level_ladder_witness :
    (11 : ℚ) ≤ 12 ∧ risk_level 12 = "Extreme" :=
  ⟨by norm_num, (risk_level_ladder.1 12).2.2.2.2 (by norm_num)⟩

/-- C8: the pipeline is deterministic: two evaluations with identical
input snapshots produce identical outputs.  `evaluate` is a plain
function of the snapshot, so no hidden state can influence it. -/
theorem evaluate_deterministic (a b : Inputs) (h : a = b) :
    evaluate a = evaluate b := by
  rw [h]

/-- Witness for C8 at a concrete snapshot (the source defaults). -/
theorem evaluate_deterministic_witness :
    evaluate ⟨300, 20, 0, 30, 60, .typeI⟩
      = evaluate ⟨300, 20, 0, 30, 60, .typeI⟩ :=
  evaluate_deterministic ⟨300, 20, 0, 30, 60, .typeI⟩
    ⟨300, 20, 0, 30, 60, .typeI⟩ rfl

/-- C9: the caller falls back to the manual slider exactly when
`get_ozone_thickness` returns `None` or `0.0` (Python truthiness of
`if ozone_live:`); and a successfully fetched o3 of 0.001 µg/m³ rounds
to 0.00 DU, so it is returned as `some 0` and hence treated as a fetch
failure by the caller. -/
theorem ozone_truthiness_fallback :
    (∀ manual : ℚ, ozoneChoice none manual = manual) ∧
    (∀ manual : ℚ, ozoneChoice (some 0) manual = manual) ∧
    (∀ v manual : ℚ, v ≠ 0 → ozoneChoice (some v) manual = v) ∧
    get_ozone_thickness 28.6139 77.209 "key"
        (.parsed (Json.obj [("list", Json.arr [Json.obj [("components",
          Json.obj [("o3", Json.num 0.001)])]])]))
      = .ok (some 0) := by
  refine ⟨fun manual => rfl, fun manual => rfl, fun v manual hv => ?_, ?_⟩
  · simp [ozoneChoice, hv]
  · have h1 : get_ozone_thickness 28.6139 77.209 "key"
        (.parsed (Json.obj [("list", Json.arr [Json.obj [("components",
          Json.obj [("o3", Json.num 0.001)])]])]))
        = .ok (some (round2 (0.001 / 2.1415))) := rfl
    rw [h1, round2, round_eq]
    norm_num

/-- Witness for C9 at v = 5. -/
theorem ozone_truthiness_fallback_witness :
    (5 : ℚ) ≠ 0 ∧ ozoneChoice (some 5) 300 = 5 :=
  ⟨by norm_num, ozone_truthiness_fallback.2.2.1 5 300 (by norm_num)⟩

/-- Algebraic expansion of `get_uv_index`, used by the monotonicity and
lower-bound proofs. -/
theorem get_uv_index_expand (oz c a : ℚ) :
    get_uv_index oz c a
      = 2400 * oz⁻¹ * ((1 - 3 * c / 400) * (1 + a / 10)) := by
  unfold get_uv_index BASE_UV_INDEX OZONE_BASE ALTITUDE_BOOST
  ring

/-- C6: on the stated domains (`ozone > 0`, `cloud ∈ [0,100]`,
`altitude ∈ [0,5]`) `get_uv_index` is strictly decreasing in ozone,
strictly decreasing in cloud cover, and strictly increasing in
altitude. -/
theorem get_uv_index_monotone :
    (∀ oz₁ oz₂ c a : ℚ, 0 < oz₁ → oz₁ < oz₂ → 0 ≤ c → c ≤ 100 →
        0 ≤ a → a ≤ 5 → get_uv_index oz₂ c a < get_uv_index oz₁ c a) ∧
    (∀ oz c₁ c₂ a : ℚ, 0 < oz → 0 ≤ c₁ → c₁ < c₂ → c₂ ≤ 100 →
        0 ≤ a → a ≤ 5 → get_uv_index oz c₂ a < get_uv_index oz c₁ a) ∧
    (∀ oz c a₁ a₂ : ℚ, 0 < oz → 0 ≤ c → c ≤ 100 → 0 ≤ a₁ →
        a₁ < a₂ → a₂ ≤ 5 → get_uv_index oz c a₁ < get_uv_index oz c a₂) := by
  refine ⟨fun oz₁ oz₂ c a hoz₁ hoz hc0 hc100 ha0 ha5 => ?_,
    fun oz c₁ c₂ a hoz hc₁ hc hc₂ ha0 ha5 => ?_,
    fun oz c a₁ a₂ hoz hc0 hc100 ha₁ ha ha₂ => ?_⟩
  · rw [get_uv_index_expand, get_uv_index_expand]
    have hP : 0 < (1 - 3 * c / 400) * (1 + a / 10) :=
      mul_pos (by linarith) (by linarith)
    have hinv : oz₂⁻¹ < oz₁⁻¹ := inv_strictAnti₀ hoz₁ hoz
    exact mul_lt_mul_of_pos_right
      (mul_lt_mul_of_pos_left hinv (by norm_num)) hP
  · rw [get_uv_index_expand, get_uv_index_expand]
    have hK : 0 < 2400 * oz⁻¹ * (1 + a / 10) :=
      mul_pos (mul_pos (by norm_num) (inv_pos.mpr hoz)) (by linarith)
    nlinarith [mul_pos hK (sub_pos.mpr hc)]
  · rw [get_uv_index_expand, get_uv_index_expand]
    have hK : 0 < 2400 * oz⁻¹ * (1 - 3 * c / 400) :=
      mul_pos (mul_pos (by norm_num) (inv_pos.mpr hoz)) (by linarith)
    nlinarith [mul_pos hK (sub_pos.mpr ha)]

/-- Witness for C6: ozone 300 → 400 at clear sky and sea level. -/
theorem get_uv_index_monotone_witness :
    (0 : ℚ) < 300 ∧ (300 : ℚ) < 400 ∧
    get_uv_index 400 0 0 < get_uv_index 300 0 0 :=
  ⟨by norm_num, by norm_num,
    get_uv_index_monotone.1 300 400 0 0 (by norm_num) (by norm_num)
      (by norm_num) (by norm_num) (by norm_num) (by norm_num)⟩

/-- C10: under the widget-enforced ranges (`ozone ∈ [100,400]`,
`cloud ∈ [0,100]`, `altitude ∈ [0,5]`, `spf ∈ [5,100]`), the UV index
is at least `8 * 300/400 * 0.25 = 1.5`, hence nonzero: neither division
divides by zero, and the safe exposure time is strictly positive. -/
theorem get_uv_index_lower_bound (oz c a spf : ℚ) (skin : SkinType)
    (hoz100 : 100 ≤ oz) (hoz400 : oz ≤ 400) (hc0 : 0 ≤ c)
    (hc100 : c ≤ 100) (ha0 : 0 ≤ a) (ha5 : a ≤ 5)
    (hspf5 : 5 ≤ spf) (hspf100 : spf ≤ 100) :
    3 / 2 ≤ get_uv_index oz c a ∧
    get_uv_index oz c a ≠ 0 ∧
    0 < get_protection_time spf (get_uv_index oz c a) (SKIN_TYPES skin) := by
  have hbound : 3 / 2 ≤ get_uv_index oz c a := by
    rw [get_uv_index_expand]
    have hinv : (400 : ℚ)⁻¹ ≤ oz⁻¹ := inv_anti₀ (by linarith) hoz400
    have hcf : 1 / 4 ≤ 1 - 3 * c / 400 := by linarith
    have haf : 1 ≤ 1 + a / 10 := by linarith
    have hP : 1 / 4 ≤ (1 - 3 * c / 400) * (1 + a / 10) := by
      nlinarith
    calc (3 : ℚ) / 2 = 2400 * (400 : ℚ)⁻¹ * (1 / 4) := by norm_num
      _ ≤ 2400 * oz⁻¹ * ((1 - 3 * c / 400) * (1 + a / 10)) := by
          apply mul_le_mul (by nlinarith) hP (by norm_num)
          have : (0 : ℚ) ≤ oz⁻¹ := inv_nonneg.mpr (by linarith)
          nlinarith
  have huv : 0 < get_uv_index oz c a := lt_of_lt_of_le (by norm_num) hbound
  have hbase : 0 < SKIN_TYPES skin := by
    cases skin <;> norm_num [SKIN_TYPES]
  refine ⟨hbound, ne_of_gt huv, ?_⟩
  unfold get_protection_time
  exact div_pos (mul_pos (by linarith) hbase) huv

/-- Witness for C10 at the corner ozone=400, cloud=100, altitude=0,
spf=5, skin type I. -/
theorem get_uv_index_lower_bound_witness :
    3 / 2 ≤ get_uv_index 400 100 0 ∧
    get_uv_index 400 100 0 ≠ 0 ∧
    0 < get_protection_time 5 (get_uv_index 400 100 0) (SKIN_TYPES .typeI) :=
  get_uv_index_lower_bound 400 100 0 5 .typeI (by norm_num) (by norm_num)
    (by norm_num) (by norm_num) (by norm_num) (by norm_num) (by norm_num)
    (by norm_num)

/-- C5: every sampled risk value is the logistic
`1 / (1 + exp(-(t - safe_time)/10))` at its sample minute
`t = 180·i/499`; the curve is exactly `1/2` at `t = safe_time`; and it
is strictly increasing in `t` for fixed `safe_time`. -/
theorem risk_curve_logistic :
    (∀ safe_time : ℝ, ∀ i : ℕ, i < 500 →
        (risk_array safe_time)[i]?
          = some (1 / (1 + Real.exp (-(180 * i / 499 - safe_time) / 10)))) ∧
    (∀ safe_time : ℝ, risk safe_time safe_time = 1 / 2) ∧
    (∀ safe_time t₁ t₂ : ℝ, t₁ < t₂ →
        risk safe_time t₁ < risk safe_time t₂) := by
  refine ⟨fun safe_time i hi => ?_, fun safe_time => ?_,
    fun safe_time t₁ t₂ h => ?_⟩
  · have hmin : minutes[i]? = some (180 * (i : ℝ) / 499) := by
      rw [minutes, List.getElem?_map, List.getElem?_range hi]
      rfl
    rw [risk_array, List.getElem?_map, hmin]
    rfl
  · simp [risk, Real.exp_zero]
    norm_num
  · unfold risk
    have hb : 0 < 1 + Real.exp (-(t₂ - safe_time) / 10) := by positivity
    have hlt : 1 + Real.exp (-(t₂ - safe_time) / 10)
        < 1 + Real.exp (-(t₁ - safe_time) / 10) := by
      have := Real.exp_lt_exp.mpr
        (show -(t₂ - safe_time) / 10 < -(t₁ - safe_time) / 10 by linarith)
      linarith
    exact one_div_lt_one_div_of_lt hb hlt

/-- Witness for C5 at safe_time = 0, sample index 0, minutes 0 < 1. -/
theorem risk_curve_logistic_witness :
    (0 : ℕ) < 500 ∧ (0 : ℝ) < 1 ∧
    (risk_array 0)[0]?
      = some (1 / (1 + Real.exp (-(180 * ((0 : ℕ) : ℝ) / 499 - 0) / 10))) ∧
    risk 0 0 < risk 0 1 :=
  ⟨by norm_num, by norm_num, risk_curve_logistic.1 0 0 (by norm_num),
    risk_curve_logistic.2.2 0 0 1 (by norm_num)⟩

/-- C7: the exported table has exactly 500 data rows (the sample count
of `np.linspace(0, 180, 500)`), its first column is exactly the sample
minutes, its second column is exactly the risk values for those
minutes, and the header is the two column names with no index
column. -/
theorem export_table (safe_time : ℝ) :
    (exportRows safe_time).length = 500 ∧
    (exportRows safe_time).map Prod.fst = minutes ∧
    (exportRows safe_time).map Prod.snd = risk_array safe_time ∧
    exportHeader.length = 2 := by
  have hm : minutes.length = 500 := by
    rw [minutes, List.length_map, List.length_range]
  have hr : (risk_array safe_time).length = 500 := by
    rw [risk_array, List.length_map, hm]
  refine ⟨?_, ?_, ?_, rfl⟩
  · rw [exportRows, List.length_zip, hm, hr]
    exact min_self 500
  · exact List.map_fst_zip minutes (risk_array safe_time) (by rw [hm, hr])
  · exact List.map_snd_zip minutes (risk_array safe_time) (by rw [hm, hr])

end SPF
